import Mathlib

/-!
Verification development for the `fat-bits` FAT filesystem engine.

Shallow embedding of the Rust sources under `src/fat-bits/src/`:
machine integers are modelled as `Nat` (with explicit `% 2^w` where the
source can overflow), fallible Rust functions return `Except String`/
`Option`, and a Rust `assert!`/`panic!` is modelled by an outer `Option`
layer whose `none` means the call does not return normally.
-/

deriving instance DecidableEq for Except

namespace FatBits

/-! ## `src/fat-bits/src/fat.rs` — the FAT table and the chain walk -/

/-- `FatError` from `fat.rs` (lines 11–21). -/
inductive FatError where
  | freeCluster : FatError
  | reservedCluster : Nat → FatError
  | defectiveCluster : FatError
  | invalidEntry : Nat → FatError
deriving DecidableEq

/-- The three FAT variants (`FatType` in `lib.rs`). -/
inductive FatVar where
  | f12 : FatVar
  | f16 : FatVar
  | f32 : FatVar
deriving DecidableEq

/-- `reserved_clusters().end` of each `FatOps` impl: `0xFF6` / `0xFFF6` /
`0xFFFFFFF6` (`fat.rs` lines 202–204, 329–331, 427–429). -/
def FatVar.reservedHi : FatVar → Nat
  | .f12 => 0xFF6
  | .f16 => 0xFFF6
  | .f32 => 0xFFFFFFF6

/-- `defective_cluster()` of each impl: `0xFF7` / `0xFFF7` / `0xFFFFFFF7`. -/
def FatVar.defectiveCl : FatVar → Nat
  | .f12 => 0xFF7
  | .f16 => 0xFFF7
  | .f32 => 0xFFFFFFF7

/-- Start of `reserved_eof_clusters()`: `0xFF8` / `0xFFF8` / `0xFFFFFFF8`. -/
def FatVar.bandLo : FatVar → Nat
  | .f12 => 0xFF8
  | .f16 => 0xFFF8
  | .f32 => 0xFFFFFFF8

/-- End of `reserved_eof_clusters()`: `0xFFE` / `0xFFFE` / `0xFFFFFFFE`. -/
def FatVar.bandHi : FatVar → Nat
  | .f12 => 0xFFE
  | .f16 => 0xFFFE
  | .f32 => 0xFFFFFFFE

/-- `eof_cluster()`: `0xFFF` / `0xFFFF` / `0xFFFFFFFF`. -/
def FatVar.eofCl : FatVar → Nat
  | .f12 => 0xFFF
  | .f16 => 0xFFFF
  | .f32 => 0xFFFFFFFF

/-- In-memory FAT state: `max` plus the `next_sectors` array, modelled as a
total function (the source arrays have length `max + 1`; `get_entry`
asserts its index is in bounds, which the walk model checks separately). -/
structure FatM where
  max : Nat
  entries : Nat → Nat

/-- `get_entry` (`fat.rs` 187–192 / 314–319 / 412–417): `none` models the
failed bounds assertion `cluster < self.next_sectors.len()`. -/
def FatM.getEntry (f : FatM) (cluster : Nat) : Option Nat :=
  if cluster < f.max + 1 then some (f.entries cluster) else none

/-- `Fat::get_next_cluster` (`fat.rs` lines 72–112), parameterised over the
variant exactly as the `enum_dispatch` trait object is.  The outer `Option`
is `none` when `get_entry`'s bounds assertion fires. -/
def getNextCluster (v : FatVar) (f : FatM) (cluster : Nat) :
    Option (Except FatError (Option Nat)) :=
  if cluster = 0 then
    some (.error .freeCluster)
  else if f.max + 1 ≤ cluster ∧ cluster ≤ v.reservedHi then
    some (.error (.reservedCluster cluster))
  else if cluster = v.defectiveCl then
    some (.error .defectiveCluster)
  else if v.bandLo ≤ cluster ∧ cluster ≤ v.bandHi then
    -- the source comments out `return Ok(None)` and errors instead
    some (.error (.reservedCluster cluster))
  else
    match f.getEntry cluster with
    | none => none
    | some entry =>
      if entry = v.eofCl ∨ (v.bandLo ≤ entry ∧ entry ≤ v.bandHi) then
        some (.ok none)
      else if 2 ≤ entry ∧ entry ≤ f.max then
        some (.ok (some entry))
      else
        some (.error (.invalidEntry entry))

/-- A concrete FAT32 table whose cluster 2 holds the standard 28-bit EOF
marker `0x0FFFFFFF` (the value claim C2 calls the FAT32 EOF marker). -/
def c2fat : FatM :=
  { max := 65526, entries := fun c => if c = 2 then 0x0FFFFFFF else 0 }

/-- C2 counterexample: on FAT32 the code compares against `0xFFFFFFF7`,
`0xFFFFFFF8..=0xFFFFFFFE` and `0xFFFFFFFF`, not the claimed 28-bit values.
An entry equal to `0x0FFFFFFF` (the claimed EOF marker) is rejected as an
invalid entry instead of terminating the chain with `None`. -/
theorem C2_counterexample :
    c2fat.entries 2 = 0x0FFFFFFF ∧
    getNextCluster .f32 c2fat 2 = some (.error (.invalidEntry 0x0FFFFFFF)) ∧
    getNextCluster .f32 c2fat 2 ≠ some (.ok none) := by
  refine ⟨rfl, ?_, ?_⟩ <;> decide

/-- C2 (amended): the chain walk behaves as the claim states, with the
FAT32 markers the code actually uses: reserved `(max+1)..=0xFFFFFFF6`,
defective `0xFFFFFFF7`, reserved-EOF band `0xFFFFFFF8..=0xFFFFFFFE`, and
EOF `0xFFFFFFFF`.  For every variant and every FAT state whose `max` lies
below the defective marker: cluster 0 fails with the free-cluster error;
a cluster in the reserved range fails with the reserved error; the
defective marker fails with the defective error; and for a cluster in
`1..=max` the walk returns `None` when its entry is the EOF marker or lies
in the reserved-EOF band, `Some e` when the entry `e` is a valid data
cluster in `2..=max`, and the invalid-entry error otherwise. -/
theorem C2_get_next_cluster (v : FatVar) (f : FatM) (c : Nat)
    (hmax : f.max < v.defectiveCl) :
    (c = 0 → getNextCluster v f c = some (.error .freeCluster)) ∧
    (f.max + 1 ≤ c → c ≤ v.reservedHi →
      getNextCluster v f c = some (.error (.reservedCluster c))) ∧
    (c = v.defectiveCl → getNextCluster v f c = some (.error .defectiveCluster)) ∧
    (1 ≤ c → c ≤ f.max →
      ((f.entries c = v.eofCl ∨ (v.bandLo ≤ f.entries c ∧ f.entries c ≤ v.bandHi)) →
        getNextCluster v f c = some (.ok none)) ∧
      (2 ≤ f.entries c → f.entries c ≤ f.max →
        getNextCluster v f c = some (.ok (some (f.entries c)))) ∧
      (f.entries c ≠ v.eofCl → ¬ (v.bandLo ≤ f.entries c ∧ f.entries c ≤ v.bandHi) →
        ¬ (2 ≤ f.entries c ∧ f.entries c ≤ f.max) →
        getNextCluster v f c = some (.error (.invalidEntry (f.entries c))))) := by
  have hres : v.defectiveCl = v.reservedHi + 1 := by cases v <;> rfl
  have hband : v.bandLo = v.defectiveCl + 1 := by cases v <;> rfl
  have hbh : v.bandLo ≤ v.bandHi := by cases v <;> decide
  have heof : v.bandHi < v.eofCl := by cases v <;> decide
  refine ⟨?_, ?_, ?_, ?_⟩
  · intro h; simp [getNextCluster, h]
  · intro h1 h2
    have hc0 : c ≠ 0 := by omega
    simp [getNextCluster, hc0, h1, h2]
  · intro h
    subst h
    have hc0 : v.defectiveCl ≠ 0 := by omega
    have hnr : ¬ (f.max + 1 ≤ v.defectiveCl ∧ v.defectiveCl ≤ v.reservedHi) := by omega
    simp [getNextCluster, hc0, hnr]
  · intro h1 h2
    have hc0 : c ≠ 0 := by omega
    have hnr : ¬ (f.max + 1 ≤ c ∧ c ≤ v.reservedHi) := by omega
    have hnd : c ≠ v.defectiveCl := by omega
    have hnb : ¬ (v.bandLo ≤ c ∧ c ≤ v.bandHi) := by omega
    have hget : f.getEntry c = some (f.entries c) := by
      simp [FatM.getEntry]; omega
    refine ⟨?_, ?_, ?_⟩
    · intro hval
      simp [getNextCluster, hc0, hnr, hnd, hnb, hget, hval]
    · intro hv1 hv2
      have hne : ¬ (f.entries c = v.eofCl ∨ (v.bandLo ≤ f.entries c ∧ f.entries c ≤ v.bandHi)) := by
        omega
      simp only [getNextCluster, if_neg hc0, if_neg hnr, if_neg hnd, if_neg hnb, hget,
        if_neg hne, if_pos (And.intro hv1 hv2)]
    · intro hne1 hne2 hne3
      have hne : ¬ (f.entries c = v.eofCl ∨ (v.bandLo ≤ f.entries c ∧ f.entries c ≤ v.bandHi)) := by
        tauto
      simp only [getNextCluster, if_neg hc0, if_neg hnr, if_neg hnd, if_neg hnb, hget,
        if_neg hne, if_neg hne3]

/-- Witness for C2: a FAT16 table with `max = 5000` whose cluster 2 holds
`0xFFFE` (mid reserved-EOF band); the walk reports end of chain. -/
theorem C2_get_next_cluster_witness :
    getNextCluster .f16 ⟨5000, fun _ => 0xFFFE⟩ 2 = some (.ok none) :=
  ((C2_get_next_cluster .f16 ⟨5000, fun _ => 0xFFFE⟩ 2 (by decide)).2.2.2
    (by decide) (by decide)).1 (by decide)

/-! ## FAT12 on-disk encoding (`Fat12::new`, `Fat12::write_to_disk`) -/

/-- Body of the decode loop of `Fat12::new` (`fat.rs` lines 159–169): one
3-byte chunk yields two 12-bit entries — the even entry is the little-endian
u16 of bytes 0–1 truncated to 12 bits, the odd entry is the little-endian
u16 of bytes 1–2 shifted right by 4. -/
def fat12DecodeTriple (b0 b1 b2 : Nat) : List Nat :=
  [(b0 + 256 * b1) % 4096, (b1 + 256 * b2) / 16]

/-- The byte stream decoded three bytes at a time, as `Fat12::new` does over
`bytes.as_chunks::<3>()` (entries land at indices `2*idx`, `2*idx + 1`). -/
def fat12DecodeBytes : List Nat → List Nat
  | b0 :: b1 :: b2 :: rest => fat12DecodeTriple b0 b1 b2 ++ fat12DecodeBytes rest
  | _ => []

/-- The three bytes `Fat12::write_to_disk` emits for one chunk (`fat.rs`
lines 240–248): `buf[0] = first lo byte`, `buf[1] = first hi byte |
(second << 4) lo byte`, `buf[2] = (second << 4) hi byte`, with `<< 4` in
wrapping u16 arithmetic. -/
def fat12WriteChunk (first second : Nat) : List Nat :=
  [first % 256,
   (first / 256) % 256 ||| ((second * 16) % 65536) % 256,
   ((second * 16) % 65536) / 256]

/-- The loop of `Fat12::write_to_disk` over `next_sectors.chunks_exact(3)`:
each chunk holds THREE entries, of which only `chunk[0]` and `chunk[1]` are
written; `cap` tracks the remaining `sub_slice` capacity consumed by
`write_all` (fewer than 3 free bytes makes `write_all` fail).  The final
`assert_eq!(iter.remainder().len(), 0)` is the error on a leftover. -/
def fat12WriteAux : List Nat → Nat → Except String (List Nat)
  | e0 :: e1 :: _e2 :: rest, cap =>
    if cap < 3 then .error "io: write_all failed"
    else (fat12WriteChunk e0 e1 ++ ·) <$> fat12WriteAux rest (cap - 3)
  | [], _ => .ok []
  | _, _ => .error "assert: chunks_exact remainder is empty"

/-- `Fat12::write_to_disk` (`fat.rs` lines 218–255): first the assertion
`3 * sub_slice.len() == self.next_sectors.len()`, then the chunk loop. -/
def fat12WriteToDisk (entries : List Nat) (cap : Nat) : Except String (List Nat) :=
  if 3 * cap = entries.length then fat12WriteAux entries cap
  else .error "assert: 3 * sub_slice.len() == self.next_sectors.len()"

/-- C1: `Fat12::write_to_disk` cannot produce the claimed encoding.  Its
per-pair byte math does match the claim (pair `(0x123, 0x456)` would emit
`0x23, 0x61, 0x45`, whose decode restores the pair), but the writer chunks
the entry table by THREE entries and drops every third one, and its length
assertion `3 * sub_slice.len() == next_sectors.len()` is unsatisfiable for
the two-entry table `[0x123, 0x456]`, so the write panics for every
capacity instead of emitting `0x23, 0x61, 0x45`; on `[0x123, 0x456, 0x789]`
the assertion forces a 1-byte buffer and the 3-byte chunk write fails after
silently discarding `0x789`. -/
theorem C1_fat12_writeback :
    fat12WriteChunk 0x123 0x456 = [0x23, 0x61, 0x45] ∧
    fat12DecodeBytes [0x23, 0x61, 0x45] = [0x123, 0x456] ∧
    (∀ cap, fat12WriteToDisk [0x123, 0x456] cap =
      .error "assert: 3 * sub_slice.len() == self.next_sectors.len()") ∧
    fat12WriteToDisk [0x123, 0x456, 0x789] 1 = .error "io: write_all failed" := by
  refine ⟨by decide, by decide, ?_, by decide⟩
  intro cap
  have h : ¬ (3 * cap = ([0x123, 0x456] : List Nat).length) := by simp; omega
  rw [fat12WriteToDisk, if_neg h]

/-! ## `src/fat-bits/src/datetime.rs` — packed dates and times -/

/-- `Date::new` (`datetime.rs` lines 11–23): validates the packed fields. -/
def dateNew (repr : Nat) : Except String Nat :=
  if ¬ (repr &&& 0x1F ≤ 31) then .error "invalid day for date"
  else if ¬ ((repr &&& 0x1E0) >>> 5 ≤ 12) then .error "invalid month for date"
  else .ok repr

/-- `Date::from_day_month_year` (`datetime.rs` lines 25–33): note the source
shifts the month by 4 and the year by 8. -/
def dateFromDayMonthYear (day month year : Nat) : Except String Nat :=
  if ¬ day ≤ 31 then .error "invalid day"
  else if ¬ month ≤ 12 then .error "invalid month"
  else if ¬ (1980 ≤ year ∧ year ≤ 2107) then .error "invalid year"
  else .ok ((day ||| (month <<< 4) ||| ((year - 1980) <<< 8)) % 65536)

/-- `Date::day`: `repr & 0x1F`. -/
def dateDay (repr : Nat) : Nat := repr &&& 0x1F

/-- `Date::month`: `(repr & 0x1E0) >> 5`. -/
def dateMonth (repr : Nat) : Nat := (repr &&& 0x1E0) >>> 5

/-- `Date::year`: `((repr & 0xFE00) >> 9) + 1980`. -/
def dateYear (repr : Nat) : Nat := ((repr &&& 0xFE00) >>> 9) + 1980

/-- `Time::from_seconds_minutes_hours` (`datetime.rs` lines 78–86). -/
def timeFromSecondsMinutesHours (seconds minutes hours : Nat) : Except String Nat :=
  if ¬ (seconds ≤ 58 ∧ seconds % 2 = 0) then .error "invalid seconds"
  else if ¬ minutes ≤ 59 then .error "invalid minutes"
  else if ¬ hours ≤ 23 then .error "invalid hours"
  else .ok ((seconds >>> 1) ||| (minutes <<< 5) ||| (hours <<< 11))

/-- `Time::second`: `2 * (repr & 0x1F)`. -/
def timeSecond (repr : Nat) : Nat := 2 * (repr &&& 0x1F)

/-- `Time::minute`: `(repr >> 5) & 0x3F`. -/
def timeMinute (repr : Nat) : Nat := (repr >>> 5) &&& 0x3F

/-- `Time::hour`: `(repr >> 11) & 0x1F`. -/
def timeHour (repr : Nat) : Nat := (repr >>> 11) &&& 0x1F

/-- C7 evaluated at the failing input: the date encoder shifts the month by
4 and the year by 8 while the decoder reads the day from bits 0–4, the
month from bits 5–8 and the year from bits 9–15, so the in-range date
1980-01-01 encodes to `0x11` and decodes to day 17, month 0, year 1980 —
not the original values.  The time half does round-trip (shown at
23:59:59, whose seconds floor to 58). -/
theorem C7_datetime_roundtrip :
    dateFromDayMonthYear 1 1 1980 = .ok 0x11 ∧
    (dateDay 0x11, dateMonth 0x11, dateYear 0x11) = (17, 0, 1980) ∧
    (timeFromSecondsMinutesHours 58 59 23 = .ok 0xBF7D ∧
      (timeSecond 0xBF7D, timeMinute 0xBF7D, timeHour 0xBF7D) = (58, 59, 23)) := by
  refine ⟨by decide, by decide, by decide, by decide⟩

/-! ## `src/fat-bits/src/bpb.rs` — the boot-sector loader -/

/-- Byte access into the boot sector (`bytes[i]`; the loader first checks
`bytes.len() >= 512`, so all its accesses are in bounds). -/
def getByte (bytes : List Nat) (i : Nat) : Nat := bytes.getD i 0

/-- `load_u16_le` (`utils.rs`). -/
def loadU16le (bytes : List Nat) (i : Nat) : Nat :=
  getByte bytes i + 256 * getByte bytes (i + 1)

/-- `load_u32_le` (`utils.rs`). -/
def loadU32le (bytes : List Nat) (i : Nat) : Nat :=
  getByte bytes i + 256 * getByte bytes (i + 1) +
    65536 * getByte bytes (i + 2) + 16777216 * getByte bytes (i + 3)

/-- `ExtBpb16` (`bpb.rs` lines 370–377). -/
structure ExtBpb16M where
  driveNumber : Nat
  bootSig : Nat
  volumeSerialNumber : Nat
  volumeLabel : List Nat
  fileSysType : List Nat
deriving DecidableEq

/-- `ExtBpb32` (`bpb.rs` lines 473–484). -/
structure ExtBpb32M where
  fatSize32 : Nat
  extFlags : Nat
  rootCluster : Nat
  fsInfo : Nat
  bkBootSector : Nat
  driveNumber : Nat
  bootSig : Nat
  volumeSerialNumber : Nat
  volumeLabel : List Nat
deriving DecidableEq

/-- `ExtBpb` (`bpb.rs` lines 7–10). -/
inductive ExtBpbM where
  | e16 : ExtBpb16M → ExtBpbM
  | e32 : ExtBpb32M → ExtBpbM
deriving DecidableEq

/-- `Bpb` (`bpb.rs` lines 21–41). -/
structure BpbM where
  fatType : FatVar
  oemName : List Nat
  bytesPerSector : Nat
  sectorsPerCluster : Nat
  reservedSectorCount : Nat
  numFats : Nat
  rootEntryCount : Nat
  totalSectors16 : Nat
  media : Nat
  fatSize16 : Nat
  sectorsPerTrack : Nat
  numHeads : Nat
  hiddenSectors : Nat
  totalSectors32 : Nat
  extBpb : ExtBpbM
deriving DecidableEq

/-- `Bpb::total_sectors` (`bpb.rs` lines 300–310). -/
def BpbM.totalSectors (b : BpbM) : Nat :=
  if b.totalSectors16 = 0 then b.totalSectors32 else b.totalSectors16

/-- `Bpb::fat_size` (`bpb.rs` lines 281–286): dispatches on the ExtBpb. -/
def BpbM.fatSize (b : BpbM) : Nat :=
  match b.extBpb with
  | .e16 _ => b.fatSize16
  | .e32 e => e.fatSize32

/-- `Bpb::root_dir_sectors` (`bpb.rs` lines 243–245):
`(32 * root_entry_count).div_ceil(bytes_per_sector)`. -/
def BpbM.rootDirSectors (b : BpbM) : Nat :=
  (32 * b.rootEntryCount + b.bytesPerSector - 1) / b.bytesPerSector

/-- u32 wrapping subtraction (release-mode semantics of the `u32` subtraction
in `num_data_sectors`). -/
def sub32 (a b : Nat) : Nat := (a % 2 ^ 32 + (2 ^ 32 - b % 2 ^ 32)) % 2 ^ 32

/-- `Bpb::num_data_sectors` (`bpb.rs` lines 195–202). -/
def BpbM.numDataSectors (b : BpbM) : Nat :=
  sub32 b.totalSectors
    ((b.reservedSectorCount + b.numFats * b.fatSize + b.rootDirSectors) % 2 ^ 32)

/-- `Bpb::count_of_clusters` (`bpb.rs` lines 215–217); division by the
already-validated `sectors_per_cluster`. -/
def BpbM.countOfClusters (b : BpbM) : Nat :=
  b.numDataSectors / b.sectorsPerCluster

/-- Byte string `"FAT12   "`. -/
def fsTypeFat12 : List Nat := [0x46, 0x41, 0x54, 0x31, 0x32, 0x20, 0x20, 0x20]

/-- Byte string `"FAT16   "`. -/
def fsTypeFat16 : List Nat := [0x46, 0x41, 0x54, 0x31, 0x36, 0x20, 0x20, 0x20]

/-- Byte string `"FAT     "`. -/
def fsTypeFatBlank : List Nat := [0x46, 0x41, 0x54, 0x20, 0x20, 0x20, 0x20, 0x20]

/-- Byte string `"FAT32   "`. -/
def fsTypeFat32 : List Nat := [0x46, 0x41, 0x54, 0x33, 0x32, 0x20, 0x20, 0x20]

/-- `ExtBpb16::load` (`bpb.rs` lines 396–442).  The `str::from_utf8` check
plus membership in `["FAT12   ", "FAT16   ", "FAT     "]` accepts exactly
those three ASCII byte strings (any other byte string errors, whether or
not it is valid UTF-8), so it is modelled as byte-string membership. -/
def extBpb16Load (bytes : List Nat) : Except String ExtBpb16M :=
  let driveNumber := getByte bytes 36
  if ¬ (driveNumber = 0x80 ∨ driveNumber = 0x00) then .error "invalid drive number"
  else
    let bootSig := getByte bytes 38
    let volumeSerialNumber := loadU32le bytes 39
    let volumeLabel := (bytes.drop 43).take 11
    if (volumeSerialNumber ≠ 0 ∨ volumeLabel ≠ List.replicate 11 0) ∧ bootSig ≠ 0x29 then
      .error "volume serial number and volume label are not both empty"
    else
      let fileSysType := (bytes.drop 54).take 8
      if ¬ (fileSysType = fsTypeFat12 ∨ fileSysType = fsTypeFat16 ∨
            fileSysType = fsTypeFatBlank) then
        .error "invalid file sys type"
      else if ¬ ((bytes.drop 510).take 2 = [0x55, 0xAA]) then
        .error "invalid signature word"
      else
        .ok ⟨driveNumber, bootSig, volumeSerialNumber, volumeLabel, fileSysType⟩

/-- `ExtBpb32::load` (`bpb.rs` lines 507–574). -/
def extBpb32Load (bytes : List Nat) : Except String ExtBpb32M :=
  let fatSize32 := loadU32le bytes 36
  if fatSize32 = 0 then .error "fat_size_32 is zero"
  else
    let extFlags := loadU16le bytes 40
    let fsVer := loadU16le bytes 42
    if ¬ (fsVer = 0) then .error "invalid FSVer"
    else
      let rootCluster := loadU32le bytes 44
      let fsInfo := loadU16le bytes 48
      let bkBootSector := loadU16le bytes 50
      if ¬ (bkBootSector = 0 ∨ bkBootSector = 6) then .error "invalid BkBootSector"
      else if ¬ ((bytes.drop 52).take 12 = List.replicate 12 0) then
        .error "reserved is not zeroed"
      else
        let driveNumber := getByte bytes 64
        if ¬ (getByte bytes 65 = 0) then .error "reserved1 is not zeroed"
        else
          let bootSig := getByte bytes 66
          let volumeSerialNumber := loadU32le bytes 67
          let volumeLabel := (bytes.drop 71).take 11
          if (volumeSerialNumber ≠ 0 ∨ volumeLabel ≠ List.replicate 11 0) ∧ bootSig ≠ 0x29 then
            .error "VollID or VolLab is set, but BootSig is not 0x29"
          else if ¬ ((bytes.drop 82).take 8 = fsTypeFat32) then
            .error "invalid file sys type"
          else if ¬ ((bytes.drop 510).take 2 = [0x55, 0xAA]) then
            .error "invalid signature word"
          else
            .ok ⟨fatSize32, extFlags, rootCluster, fsInfo, bkBootSector,
                 driveNumber, bootSig, volumeSerialNumber, volumeLabel⟩

/-- The variant-reclassification block at the end of `Bpb::load`
(`bpb.rs` lines 166–191). -/
def reclassify (bpb : BpbM) : Except String BpbM :=
  let cc := bpb.countOfClusters
  if cc < 4085 then
    if bpb.fatType = .f16 then .ok { bpb with fatType := .f12 }
    else .error "should actually be FAT12"
  else if cc < 65525 then
    if bpb.fatType = .f16 then .ok bpb
    else .error "should actually be FAT16"
  else
    if bpb.fatType = .f32 then .ok bpb
    else .error "should actually be FAT32"

/-- `Bpb::load` (`bpb.rs` lines 90–192). -/
def bpbLoad (bytes : List Nat) : Except String BpbM :=
  if ¬ (512 ≤ bytes.length) then .error "invalid BPB"
  else
    let oemName := (bytes.drop 3).take 8
    let bytesPerSector := loadU16le bytes 11
    if ¬ (bytesPerSector = 512 ∨ bytesPerSector = 1024 ∨ bytesPerSector = 2048 ∨
          bytesPerSector = 4096) then .error "invalid bytes per sector"
    else
      let sectorsPerCluster := getByte bytes 13
      if ¬ (sectorsPerCluster ∈ [1, 2, 4, 8, 16, 32, 64, 128]) then
        .error "invalid sectors per cluster"
      else
        let reservedSectorCount := loadU16le bytes 14
        if reservedSectorCount = 0 then .error "reserved sector count can't be zero"
        else
          let numFats := getByte bytes 16
          let rootEntryCount := loadU16le bytes 17
          let totalSectors16 := loadU16le bytes 19
          let media := getByte bytes 21
          if ¬ (media ∈ [0xF0, 0xF8, 0xF9, 0xFA, 0xFB, 0xFC, 0xFD, 0xFE, 0xFF]) then
            .error "invalid media"
          else
            let fatSize16 := loadU16le bytes 22
            let sectorsPerTrack := loadU16le bytes 24
            let numHeads := loadU16le bytes 26
            let hiddenSectors := loadU32le bytes 28
            let totalSectors32 := loadU32le bytes 32
            if fatSize16 = 0 then
              if ¬ (totalSectors16 = 0) then
                .error "fat_size_16 is 0, but total sectors is not 0"
              else
                match extBpb32Load bytes with
                | .error e => .error e
                | .ok ext =>
                  reclassify ⟨.f32, oemName, bytesPerSector, sectorsPerCluster,
                    reservedSectorCount, numFats, rootEntryCount, totalSectors16, media,
                    fatSize16, sectorsPerTrack, numHeads, hiddenSectors, totalSectors32,
                    .e32 ext⟩
            else
              match extBpb16Load bytes with
              | .error e => .error e
              | .ok ext =>
                reclassify ⟨.f16, oemName, bytesPerSector, sectorsPerCluster,
                  reservedSectorCount, numFats, rootEntryCount, totalSectors16, media,
                  fatSize16, sectorsPerTrack, numHeads, hiddenSectors, totalSectors32,
                  .e16 ext⟩

/-- Reclassification keeps every field but `fat_type`, so the cluster count
is unchanged. -/
theorem countOfClusters_set_fatType (b : BpbM) (v : FatVar) :
    BpbM.countOfClusters { b with fatType := v } = b.countOfClusters := rfl

/-- What `reclassify` guarantees about any BPB it accepts. -/
theorem reclassify_ok (bpb b : BpbM) (h : reclassify bpb = .ok b) :
    (b.fatType = .f12 ↔ b.countOfClusters < 4085) ∧
    (b.fatType = .f16 ↔ 4085 ≤ b.countOfClusters ∧ b.countOfClusters < 65525) ∧
    (b.fatType = .f32 ↔ 65525 ≤ b.countOfClusters) := by
  simp only [reclassify] at h
  split_ifs at h <;>
    first
    | exact Except.noConfusion h
    | (injection h with hb
       subst hb
       refine ⟨?_, ?_, ?_⟩ <;> simp_all [countOfClusters_set_fatType] <;> omega)

/-- An accepted load always went through `reclassify`. -/
theorem bpbLoad_ok (bytes : List Nat) (b : BpbM) (h : bpbLoad bytes = .ok b) :
    ∃ bpb, reclassify bpb = .ok b := by
  simp only [bpbLoad] at h
  repeat' first
  | exact ⟨_, h⟩
  | split at h
  | exact Except.noConfusion h

/-- The boot sector of the reclassification scenario: geometry
`bytes_per_sector = 512`, `sectors_per_cluster = 1`, 1 reserved sector,
1 FAT of 12 sectors, 16 root entries (1 root-dir sector), 4014 total
sectors, so `count_of_clusters = 4014 − (1 + 12 + 1) = 4000`; the disk
extension claims `"FAT16   "`. -/
def c3fat16Sector : List Nat :=
  [(11, 0x00), (12, 0x02), (13, 1), (14, 1), (16, 1), (17, 16),
   (19, 0xAE), (20, 0x0F), (21, 0xF8), (22, 12), (36, 0x80),
   (54, 0x46), (55, 0x41), (56, 0x54), (57, 0x31), (58, 0x36),
   (59, 0x20), (60, 0x20), (61, 0x20),
   (510, 0x55), (511, 0xAA)].foldl (fun l p => l.set p.1 p.2) (List.replicate 512 0)

/-- The same 4000-cluster geometry presented as FAT32: `fat_size_16 = 0`,
`total_sectors_16 = 0`, `total_sectors_32 = 4014`, `fat_size_32 = 12`,
no root entries, a valid FAT32 extension claiming `"FAT32   "`. -/
def c3fat32Sector : List Nat :=
  [(11, 0x00), (12, 0x02), (13, 1), (14, 1), (16, 1),
   (32, 0xAE), (33, 0x0F), (21, 0xF8), (36, 12), (44, 2), (64, 0x80),
   (82, 0x46), (83, 0x41), (84, 0x54), (85, 0x33), (86, 0x32),
   (87, 0x20), (88, 0x20), (89, 0x20),
   (510, 0x55), (511, 0xAA)].foldl (fun l p => l.set p.1 p.2) (List.replicate 512 0)

set_option maxRecDepth 100000 in
/-- C3: every boot sector the loader accepts is classified purely by its
cluster count — FAT12 iff `count < 4085`, FAT16 iff `4085 ≤ count < 65525`,
FAT32 otherwise — and in particular the 4000-cluster sector claiming FAT16
is accepted and reclassified as FAT12, while the same small geometry
claiming FAT32 is rejected. -/
theorem C3_variant_classification :
    (∀ (bytes : List Nat) (b : BpbM), bpbLoad bytes = .ok b →
      (b.fatType = .f12 ↔ b.countOfClusters < 4085) ∧
      (b.fatType = .f16 ↔ 4085 ≤ b.countOfClusters ∧ b.countOfClusters < 65525) ∧
      (b.fatType = .f32 ↔ 65525 ≤ b.countOfClusters)) ∧
    (bpbLoad c3fat16Sector).map (fun b => (b.fatType, b.countOfClusters)) =
      .ok (.f12, 4000) ∧
    (bpbLoad c3fat32Sector).map (fun b => b.fatType) =
      .error "should actually be FAT12" := by
  refine ⟨?_, by decide, by decide⟩
  intro bytes b h
  obtain ⟨bpb, hr⟩ := bpbLoad_ok bytes b h
  exact reclassify_ok bpb b hr

set_option maxRecDepth 100000 in
/-- Witness for C3: the general classification statement applied to the
concrete accepted FAT16-claiming sector. -/
theorem C3_variant_classification_witness :
    ∃ b : BpbM, bpbLoad c3fat16Sector = .ok b ∧
      (b.fatType = .f12 ↔ b.countOfClusters < 4085) := by
  cases heq : bpbLoad c3fat16Sector with
  | error e =>
    have hok : (bpbLoad c3fat16Sector).map (fun b => (b.fatType, b.countOfClusters)) =
        .ok (.f12, 4000) := by decide
    rw [heq] at hok
    exact Except.noConfusion hok
  | ok b =>
    exact ⟨b, rfl, (C3_variant_classification.1 c3fat16Sector b heq).1⟩

/-! ## `src/fat-bits/src/dir.rs` — directory entries and the iterator -/

/-- `Attr::from_bits_truncate`: keeps the six known flag bits (`0x3F`). -/
def attrTruncate (b : Nat) : Nat := b &&& 0x3F

/-- `bitflags` `contains`: all bits of the mask are present. -/
def attrContainsB (attr mask : Nat) : Bool := attr &&& mask == mask

/-- `truncate_trailing_spaces` inside `DirEntry::load_name`. -/
def trimTrailingSpaces (l : List Nat) : List Nat :=
  (l.reverse.dropWhile (· == 0x20)).reverse

/-- The byte remapping of `load_name`: non-ASCII bytes become `b'?'`. -/
def mapNameByte (c : Nat) : Nat := if 128 ≤ c then 0x3F else c

/-- `DirEntry::load_name` (`dir.rs` lines 94–142): writes into a zeroed
13-byte array a leading `.` for hidden non-volume entries, the trimmed and
remapped stem, and (if non-empty) a `.` plus the trimmed remapped extension. -/
def loadName (bytes11 : List Nat) (attr : Nat) : List Nat :=
  let pre := if attrContainsB attr 0x02 ∧ ¬ attrContainsB attr 0x08 then [0x2E] else []
  let stem := (trimTrailingSpaces (bytes11.take 8)).map mapNameByte
  let ext := (trimTrailingSpaces (bytes11.drop 8)).map mapNameByte
  ((pre ++ stem ++ (if ext.isEmpty then [] else 0x2E :: ext)) ++
    List.replicate 13 0).take 13

/-- One step of `u8::rotate_right(1)`. -/
def rotRight8 (x : Nat) : Nat := (x >>> 1) ||| ((x &&& 1) <<< 7)

/-- `DirEntry::checksum` (`dir.rs` lines 377–385): right-rotate then
wrapping-add over the name bytes. -/
def checksum83 (name : List Nat) : Nat :=
  name.foldl (fun acc x => (rotRight8 acc + x) % 256) 0

/-- The fields of `DirEntry` (`dir.rs` lines 50–70) the iterator produces
(`chrono` conversions aside); the long name is kept as decoded code points. -/
structure DirEntryM where
  name : List Nat
  attr : Nat
  createTimeTenths : Nat
  createTime : Nat
  createDate : Nat
  lastAccessDate : Nat
  firstCluster : Nat
  writeTime : Nat
  writeDate : Nat
  fileSize : Nat
  checksum : Nat
  longName : Option (List Nat)
deriving DecidableEq

/-- `DirEntry::is_sentinel`: loaded name starts with `0x00`. -/
def DirEntryM.isSentinelE (e : DirEntryM) : Bool := e.name.getD 0 0 == 0x00

/-- `DirEntry::is_empty`: loaded name starts with `0xE5` or `0x00`. -/
def DirEntryM.isEmptyE (e : DirEntryM) : Bool :=
  e.name.getD 0 0 == 0xE5 || e.name.getD 0 0 == 0x00

/-- `DirEntry::load` (`dir.rs` lines 144–200) on a 32-byte slot
(`Time::new` never fails; `Date::new` is `dateNew`). -/
def dirEntryLoad (slot : List Nat) : Except String DirEntryM :=
  let attr := attrTruncate (getByte slot 11)
  let name := loadName (slot.take 11) attr
  let tenths := getByte slot 13
  if ¬ (tenths ≤ 199) then .error "invalid DIR_CrtTimeTenth"
  else
    let createTime := loadU16le slot 14
    match dateNew (loadU16le slot 16) with
    | .error e => .error e
    | .ok createDate =>
      match dateNew (loadU16le slot 18) with
      | .error e => .error e
      | .ok lastAccessDate =>
        let writeTime := loadU16le slot 22
        match dateNew (loadU16le slot 24) with
        | .error e => .error e
        | .ok writeDate =>
          let fileSize := loadU32le slot 28
          let firstCluster := loadU16le slot 26 ||| (loadU16le slot 20 <<< 16)
          if attrContainsB attr 0x08 ∧ firstCluster ≠ 0 then
            .error "volume id attribute set, but first cluster is not zero"
          else if attrContainsB attr 0x10 ∧ fileSize ≠ 0 then
            .error "directory attribute set, but file size is not zero"
          else
            .ok ⟨name, attr, tenths, createTime, createDate, lastAccessDate,
                 firstCluster, writeTime, writeDate, fileSize,
                 checksum83 (slot.take 11), none⟩

/-- `LongNameDirEntry` (`dir.rs` lines 391–396). -/
structure LongNameDirEntryM where
  ordinal : Nat
  isLast : Bool
  name : List Nat
  checksum : Nat
deriving DecidableEq

/-- `LongNameDirEntry::load` (`dir.rs` lines 399–442): 13 UTF-16LE code
units gathered from byte offsets 1–10, 14–25 and 28–31. -/
def longNameLoad (slot : List Nat) : Except String LongNameDirEntryM :=
  let ordinal := getByte slot 0 &&& 0xBF
  let isLast := getByte slot 0 &&& 0x40 ≠ 0
  let attr := getByte slot 11
  if ¬ (attr &&& 0x0F = 0x0F) then .error "not a long name entry"
  else if ¬ (getByte slot 12 = 0) then .error "LDIR_Type must be 0"
  else
    let checksum := getByte slot 13
    if ¬ (getByte slot 26 = 0 ∧ getByte slot 27 = 0) then
      .error "LDIR_FstClusLO must be zero"
    else
      .ok ⟨ordinal, isLast,
        [loadU16le slot 1, loadU16le slot 3, loadU16le slot 5, loadU16le slot 7,
         loadU16le slot 9, loadU16le slot 14, loadU16le slot 16, loadU16le slot 18,
         loadU16le slot 20, loadU16le slot 22, loadU16le slot 24,
         loadU16le slot 28, loadU16le slot 30], checksum⟩

/-- `LongFilenameBuf` (`dir.rs` lines 486–491). -/
structure LongBufM where
  revBuf : List Nat
  checksum : Option Nat
  lastOrdinal : Option Nat
deriving DecidableEq

/-- The `Default`/`reset` state of `LongFilenameBuf`. -/
def lfbEmpty : LongBufM := ⟨[], none, none⟩

/-- Trimming of trailing `0xFFFF` padding in `LongFilenameBuf::next`. -/
def trimTrailingFFFF (l : List Nat) : List Nat :=
  (l.reverse.dropWhile (· == 0xFFFF)).reverse

/-- `LongFilenameBuf::next` (`dir.rs` lines 500–553).  `none` models a
panicking `assert!`: the length-13 assertion on an unterminated last
fragment, the non-emptiness assertion, and — on a fragment without the
is-last flag — `assert!(self.checksum.is_some() && self.last_ordinal.is_some())`,
which fires whenever no is-last fragment preceded.  The `u8` subtraction
`last_ordinal - 1` is modelled wrapping (release semantics). -/
def lfbNext (b : LongBufM) (d : LongNameDirEntryM) : Option (Except String LongBufM) :=
  if d.isLast then
    if ¬ (d.ordinal ≤ 20) then
      some (.error "can't have more than 20 long filename dir entries")
    else
      let n1 := trimTrailingFFFF d.name
      match n1.getLast? with
      | some 0 =>
        let n2 := n1.dropLast
        if n2.isEmpty then none
        else some (.ok ⟨b.revBuf ++ n2.reverse, some d.checksum, some d.ordinal⟩)
      | _ =>
        if n1.length = 13 then
          some (.ok ⟨b.revBuf ++ n1.reverse, some d.checksum, some d.ordinal⟩)
        else none
  else
    match b.checksum, b.lastOrdinal with
    | some cs, some lo =>
      if ¬ (cs = d.checksum) then some (.error "checksum doesn't match previous")
      else if lo = 1 then some (.error "last ordinal was 1, but found more entries")
      else if ¬ ((lo + 255) % 256 = d.ordinal) then
        some (.error "unexpected ordinal")
      else some (.ok ⟨b.revBuf ++ d.name.reverse, b.checksum, some d.ordinal⟩)
    | _, _ => none

/-- `LongFilenameBuf::get_buf` (`dir.rs` lines 559–584). -/
def lfbGetBuf (b : LongBufM) (checksum : Nat) : Except String (Option (List Nat)) :=
  match b.checksum with
  | none => .ok none
  | some cs =>
    match b.lastOrdinal with
    | none => .error "long filename buffer is empty"
    | some lo =>
      if ¬ (lo = 1) then .error "last ordinal is not 1"
      else if ¬ (cs = checksum) then .error "given checksum doesn't match previous"
      else if ¬ (b.revBuf.length ≤ 255) then .error "long filename too long"
      else .ok (some b.revBuf.reverse)

/-- `char::decode_utf16(..).filter_map(|x| x.ok())`: surrogate pairs are
combined, unpaired surrogates are dropped.  The fuel argument (at least
the list length) only drives the recursion. -/
def decodeUtf16Aux : Nat → List Nat → List Nat
  | 0, _ => []
  | _, [] => []
  | fuel + 1, u :: rest =>
    if 0xD800 ≤ u ∧ u ≤ 0xDBFF then
      match rest with
      | [] => []
      | v :: rest2 =>
        if 0xDC00 ≤ v ∧ v ≤ 0xDFFF then
          (0x10000 + (u - 0xD800) * 0x400 + (v - 0xDC00)) :: decodeUtf16Aux fuel rest2
        else decodeUtf16Aux fuel rest
    else if 0xDC00 ≤ u ∧ u ≤ 0xDFFF then decodeUtf16Aux fuel rest
    else u :: decodeUtf16Aux fuel rest

/-- `char::decode_utf16` over a whole code-unit list. -/
def decodeUtf16 (units : List Nat) : List Nat := decodeUtf16Aux units.length units

/-- The 32-byte records `DirIter` pulls with `read_exact` from the stream;
a trailing partial record fails the read and ends the iteration. -/
def chunk32Aux : Nat → List Nat → List (List Nat)
  | 0, _ => []
  | fuel + 1, l =>
    if 32 ≤ l.length then l.take 32 :: chunk32Aux fuel (l.drop 32) else []

/-- All full 32-byte records of a byte stream. -/
def chunk32 (l : List Nat) : List (List Nat) := chunk32Aux l.length l

/-- `DirIter` (`next_impl`, `dir.rs` lines 602–654, driven by the
`Iterator` impl at lines 657–670, which logs an error and continues):
collects every emitted `DirEntry`.  `none` propagates a panic from
`LongFilenameBuf::next`.  A failed `DirEntryWrapper::load` or
`get_buf` leaves the buffer untouched; a failed `LongFilenameBuf::next`
resets it. -/
def dirEntriesAux : LongBufM → List (List Nat) → Option (List DirEntryM)
  | _, [] => some []
  | buf, slot :: rest =>
    if attrTruncate (getByte slot 11) = 0x0F then
      match longNameLoad slot with
      | .error _ => dirEntriesAux buf rest
      | .ok d =>
        match lfbNext buf d with
        | none => none
        | some (.error _) => dirEntriesAux lfbEmpty rest
        | some (.ok buf2) => dirEntriesAux buf2 rest
    else
      match dirEntryLoad slot with
      | .error _ => dirEntriesAux buf rest
      | .ok e =>
        if e.isSentinelE then some []
        else if e.isEmptyE then dirEntriesAux buf rest
        else
          match lfbGetBuf buf e.checksum with
          | .error _ => dirEntriesAux buf rest
          | .ok none => (dirEntriesAux lfbEmpty rest).map (e :: ·)
          | .ok (some units) =>
            (dirEntriesAux lfbEmpty rest).map
              ({ e with longName := some (decodeUtf16 units) } :: ·)

/-- The logical directory listing of a byte stream. -/
def dirEntries (bytes : List Nat) : Option (List DirEntryM) :=
  dirEntriesAux lfbEmpty (chunk32 bytes)

/-- A 32-byte short-entry slot: 11 name bytes, the attribute byte, and
zeroes elsewhere (valid times, dates, cluster and size). -/
def mkShortSlot (name11 : List Nat) (attr : Nat) : List Nat :=
  name11 ++ [attr] ++ List.replicate 20 0

/-- The name bytes `"FILE    TXT"`. -/
def fileTxtName : List Nat :=
  [0x46, 0x49, 0x4C, 0x45, 0x20, 0x20, 0x20, 0x20, 0x54, 0x58, 0x54]

/-- Scenario 1 of the spec: one valid `"FILE    TXT"` entry, then 32 zero
bytes (the sentinel). -/
def c4stream1 : List Nat := mkShortSlot fileTxtName 0x20 ++ List.replicate 32 0

/-- Scenario 2 of the spec: a deleted slot (first byte `0xE5`, remainder a
valid-looking file entry), a valid entry, then the sentinel. -/
def c4stream2 : List Nat :=
  mkShortSlot ([0xE5] ++ fileTxtName.drop 1) 0x20 ++
  mkShortSlot fileTxtName 0x20 ++ List.replicate 32 0

/-- C4 evaluated at the failing input: the sentinel does terminate the
iteration (scenario 1 yields exactly one entry), but a deleted slot is NOT
skipped: `load_name` rewrites every byte ≥ 128 — including the `0xE5`
marker — to `b'?'` before `is_empty` looks at it, so scenario 2 yields two
entries (the first with name `"?ILE.TXT"`) where the claim requires one. -/
theorem C4_deleted_slot :
    (dirEntries c4stream1).map List.length = some 1 ∧
    (dirEntries c4stream2).map List.length = some 2 ∧
    (dirEntries c4stream2).map (List.map fun e => e.name.getD 0 0) =
      some [0x3F, 0x46] := by
  refine ⟨by decide, by decide, by decide⟩

/-- The 8.3 name `"HELLO-~1TXT"` paired with the long-name run. -/
def c5shortName : List Nat :=
  [0x48, 0x45, 0x4C, 0x4C, 0x4F, 0x2D, 0x7E, 0x31, 0x54, 0x58, 0x54]

/-- Its `checksum_83`, carried by both long-name fragments. -/
def c5csum : Nat := checksum83 c5shortName

/-- UTF-16LE serialisation of a list of code units. -/
def bytesOfU16 (l : List Nat) : List Nat :=
  l.foldr (fun x acc => x % 256 :: (x / 256) % 256 :: acc) []

/-- A 32-byte long-name slot from the raw first byte, checksum and its 13
code units (5 + 6 + 2 at offsets 1, 14 and 28; type byte and the
`LDIR_FstClusLO` word zero). -/
def mkLongSlot (ord0 csum : Nat) (u : List Nat) : List Nat :=
  [ord0] ++ bytesOfU16 (u.take 5) ++ [0x0F, 0, csum] ++
    bytesOfU16 ((u.drop 5).take 6) ++ [0, 0] ++ bytesOfU16 (u.drop 11)

/-- Code units 1–13 of `"hello-world.txt"`: `"hello-world.t"`. -/
def c5units1 : List Nat :=
  [0x68, 0x65, 0x6C, 0x6C, 0x6F, 0x2D, 0x77, 0x6F, 0x72, 0x6C, 0x64, 0x2E, 0x74]

/-- Code units 14–15 (`"xt"`), a null terminator, then `0xFFFF` padding. -/
def c5units2 : List Nat := [0x78, 0x74, 0] ++ List.replicate 10 0xFFFF

/-- The long-name run: ordinal 2 with the is-last flag (`0x42`), ordinal 1,
then the short entry whose checksum both fragments carry. -/
def c5stream : List Nat :=
  mkLongSlot 0x42 c5csum c5units2 ++ mkLongSlot 0x01 c5csum c5units1 ++
    mkShortSlot c5shortName 0x20

/-- C5: the two-fragment long-name run followed by a checksum-matching
short entry produces exactly one entry whose long name is exactly
`"hello-world.txt"`. -/
theorem C5_long_name_reassembly :
    (dirEntries c5stream).map (List.map DirEntryM.longName) =
      some [some ("hello-world.txt".data.map Char.toNat)] := by decide

/-- A long-name fragment with ordinal 1 and no is-last flag, arriving with
no preceding is-last fragment. -/
def c6stream : List Nat :=
  mkLongSlot 0x01 0x55 (List.replicate 13 0x41) ++ List.replicate 32 0

/-- A long-name run whose second fragment carries the wrong checksum
(`0x42`-flagged ordinal 2, then a mismatching ordinal-1 fragment), then a
valid short entry and the sentinel. -/
def c6streamRecoverable : List Nat :=
  mkLongSlot 0x42 c5csum c5units2 ++ mkLongSlot 0x01 (c5csum + 1) c5units1 ++
    mkShortSlot c5shortName 0x20 ++ List.replicate 32 0

/-- C6 evaluated at the failing input: a fragment without the is-last flag
arriving on an empty buffer reaches
`assert!(self.checksum.is_some() && self.last_ordinal.is_some())` in
`LongFilenameBuf::next` and panics (modelled `none`) instead of being
reported as a recoverable error — while a wrong-checksum violation does
recover (the buffer is reset and the short entry is still emitted, one
entry, without a long name). -/
theorem C6_long_name_violation :
    dirEntries c6stream = none ∧
    (dirEntries c6streamRecoverable).map (List.map DirEntryM.longName) =
      some [none] := by
  refine ⟨by decide, by decide⟩

/-! ## `src/fat-bits/src/lib.rs`, `subslice.rs`, `iter.rs` — the volume and
cluster-chain streams -/

/-- The parts of `FatFs` the cluster-window and stream operations use. -/
structure FatFsM where
  dataOffset : Nat
  bytesPerCluster : Nat
  fatVariant : FatVar
  fat : FatM

/-- `FatFs::next_cluster` (`lib.rs` lines 202–204). -/
def FatFsM.nextCluster (fs : FatFsM) (c : Nat) : Option (Except FatError (Option Nat)) :=
  getNextCluster fs.fatVariant fs.fat c

/-- A byte window: what a `SubSlice`/`SubSliceMut` carries (`subslice.rs`). -/
structure SubSliceM where
  offset : Nat
  len : Nat
deriving DecidableEq

/-- `FatFs::data_cluster_to_offset` (`lib.rs` lines 175–181): `none` models
the failed assertion `self.fat.valid_clusters().contains(&cluster)`
(valid clusters are `2..=max`). -/
def FatFsM.dataClusterToOffset (fs : FatFsM) (c : Nat) : Option Nat :=
  if 2 ≤ c ∧ c ≤ fs.fat.max then
    some (fs.dataOffset + (c - 2) * fs.bytesPerCluster)
  else none

/-- `FatFs::cluster_as_subslice_mut` (`lib.rs` lines 206–218).  The source
guards `if cluster == 0 { SubSliceMut::new(self.inner.clone(), 0, 0); }`,
but the statement lacks a `return`: the empty subslice is built and
immediately dropped, and execution falls through to
`data_cluster_to_offset(cluster)` unconditionally. -/
def FatFsM.clusterAsSubsliceMut (fs : FatFsM) (c : Nat) : Option SubSliceM :=
  let _discardedEmptyWindow : SubSliceM := ⟨0, 0⟩
  (fs.dataClusterToOffset c).map fun off => ⟨off, fs.bytesPerCluster⟩

/-- `FatFs::cluster_as_subslice` (`lib.rs` lines 220–232): same shape, same
missing `return`. -/
def FatFsM.clusterAsSubslice (fs : FatFsM) (c : Nat) : Option SubSliceM :=
  let _discardedEmptyWindow : SubSliceM := ⟨0, 0⟩
  (fs.dataClusterToOffset c).map fun off => ⟨off, fs.bytesPerCluster⟩

/-- `Result::unwrap_or(None)` applied to `next_cluster`'s result, as both
stream constructors and both `move_to_next_cluster`s do. -/
def unwrapOrNone (r : Except FatError (Option Nat)) : Option Nat :=
  match r with
  | .ok o => o
  | .error _ => none

/-- `ClusterChainReader` (`iter.rs` lines 6–12). -/
structure ReaderM where
  subSlice : SubSliceM
  nextCluster : Option Nat
deriving DecidableEq

/-- `ClusterChainWriter` (`iter.rs` lines 98–104). -/
structure WriterM where
  subSlice : SubSliceM
  nextCluster : Option Nat
deriving DecidableEq

/-- `ClusterChainReader::new` (`iter.rs` lines 15–25). -/
def readerNew (fs : FatFsM) (firstCluster : Nat) : Option ReaderM :=
  match fs.nextCluster firstCluster with
  | none => none
  | some r => (fs.clusterAsSubslice firstCluster).map fun ss => ⟨ss, unwrapOrNone r⟩

/-- `ClusterChainWriter::new` (`iter.rs` lines 107–117). -/
def writerNew (fs : FatFsM) (firstCluster : Nat) : Option WriterM :=
  match fs.nextCluster firstCluster with
  | none => none
  | some r => (fs.clusterAsSubsliceMut firstCluster).map fun ss => ⟨ss, unwrapOrNone r⟩

/-- `ClusterChainReader::move_to_next_cluster` (`iter.rs` lines 49–58):
advances the lookahead AND re-homes `sub_slice` to the next cluster. -/
def readerMoveToNextCluster (fs : FatFsM) (r : ReaderM) : Option (Bool × ReaderM) :=
  match r.nextCluster with
  | none => some (false, r)
  | some nc =>
    match fs.nextCluster nc with
    | none => none
    | some res =>
      match fs.clusterAsSubslice nc with
      | none => none
      | some ss => some (true, ⟨ss, unwrapOrNone res⟩)

/-- `ClusterChainWriter::move_to_next_cluster` (`iter.rs` lines 141–151):
advances the lookahead, but the source line
`self.fat_fs.cluster_as_subslice_mut(next_cluster);` discards its result —
`self.sub_slice` is NOT reassigned (compare the reader above). -/
def writerMoveToNextCluster (fs : FatFsM) (w : WriterM) : Option (Bool × WriterM) :=
  match w.nextCluster with
  | none => some (false, w)
  | some nc =>
    match fs.nextCluster nc with
    | none => none
    | some res =>
      match fs.clusterAsSubsliceMut nc with
      | none => none
      | some _ => some (true, { w with nextCluster := unwrapOrNone res })

/-- `Read`/`Write` on a subslice (`subslice.rs`): consumes
`min(len, buf.len())` bytes and advances. -/
def subSliceConsume (ss : SubSliceM) (bufLen : Nat) : Nat × SubSliceM :=
  let n := min ss.len bufLen
  (n, ⟨ss.offset + n, ss.len - n⟩)

/-- `Read for ClusterChainReader` (`iter.rs` lines 86–96). -/
def readerRead (fs : FatFsM) (r : ReaderM) (bufLen : Nat) : Option (Nat × ReaderM) :=
  if r.subSlice.len = 0 then
    match readerMoveToNextCluster fs r with
    | none => none
    | some (false, r2) => some (0, r2)
    | some (true, r2) =>
      let p := subSliceConsume r2.subSlice bufLen
      some (p.1, { r2 with subSlice := p.2 })
  else
    let p := subSliceConsume r.subSlice bufLen
    some (p.1, { r with subSlice := p.2 })

/-- `Write for ClusterChainWriter` (`iter.rs` lines 179–193). -/
def writerWrite (fs : FatFsM) (w : WriterM) (bufLen : Nat) : Option (Nat × WriterM) :=
  if w.subSlice.len = 0 then
    match writerMoveToNextCluster fs w with
    | none => none
    | some (false, w2) => some (0, w2)
    | some (true, w2) =>
      let p := subSliceConsume w2.subSlice bufLen
      some (p.1, { w2 with subSlice := p.2 })
  else
    let p := subSliceConsume w.subSlice bufLen
    some (p.1, { w with subSlice := p.2 })

/-- `FatFs::file_reader` (`lib.rs` lines 273–278): `none` models the failed
`assert!(first_cluster >= 2)`. -/
def FatFsM.fileReader (fs : FatFsM) (firstCluster : Nat) : Option ReaderM :=
  if 2 ≤ firstCluster then readerNew fs firstCluster else none

/-- `FatFs::file_writer` (`lib.rs` lines 280–285). -/
def FatFsM.fileWriter (fs : FatFsM) (firstCluster : Nat) : Option WriterM :=
  if 2 ≤ firstCluster then writerNew fs firstCluster else none

/-- A FAT16 volume with a two-cluster chain `2 → 3 → EOF`, 512-byte
clusters, data at offset `0x4000`. -/
def c8fs : FatFsM :=
  ⟨0x4000, 512, .f16,
   ⟨5000, fun c => if c = 2 then 3 else if c = 3 then 0xFFFF else 0⟩⟩

/-- C8 evaluated at the failing input: a writer opened on the chain
`2 → 3` fills cluster 2's 512-byte window; the subsequent write of 100
bytes then returns 0 bytes even though the lookahead holds cluster 3 —
the writer's `move_to_next_cluster` discards the freshly built window of
cluster 3 instead of installing it, leaving the spent zero-length window
in place; the reader at the identical state does re-home and serves 100
bytes from cluster 3's window. -/
theorem C8_writer_advance :
    writerNew c8fs 2 = some ⟨⟨0x4000, 512⟩, some 3⟩ ∧
    writerWrite c8fs ⟨⟨0x4000, 512⟩, some 3⟩ 512 =
      some (512, ⟨⟨0x4000 + 512, 0⟩, some 3⟩) ∧
    writerWrite c8fs ⟨⟨0x4000 + 512, 0⟩, some 3⟩ 100 =
      some (0, ⟨⟨0x4000 + 512, 0⟩, none⟩) ∧
    readerRead c8fs ⟨⟨0x4000 + 512, 0⟩, some 3⟩ 100 =
      some (100, ⟨⟨0x4200 + 100, 412⟩, none⟩) := by
  refine ⟨by decide, by decide, by decide, by decide⟩

/-- C9 evaluated at the failing input: requesting cluster 0's window does
not yield an empty window — because the `if cluster == 0` arm lacks a
`return`, both window operations fall through to
`data_cluster_to_offset(0)`, whose validity assertion (`2..=max`) fails. -/
theorem C9_cluster0_window (fs : FatFsM) :
    fs.clusterAsSubsliceMut 0 = none ∧ fs.clusterAsSubslice 0 = none := by
  constructor <;>
    simp [FatFsM.clusterAsSubsliceMut, FatFsM.clusterAsSubslice, FatFsM.dataClusterToOffset]

/-- C10: `file_reader` and `file_writer` assert `first_cluster >= 2`; for
first clusters 0 and 1 — including the empty-file sentinel 0 — the call
panics (modelled `none`) instead of returning a stream or an error. -/
theorem C10_file_stream_precondition (fs : FatFsM) (c : Nat) (h : c < 2) :
    fs.fileReader c = none ∧ fs.fileWriter c = none := by
  have h2 : ¬ 2 ≤ c := by omega
  constructor <;> simp [FatFsM.fileReader, FatFsM.fileWriter, h2]

/-- Witness for C10: opening a file stream at the empty-file sentinel
cluster 0 on the concrete volume panics for both reader and writer. -/
theorem C10_file_stream_precondition_witness :
    FatFsM.fileReader c8fs 0 = none ∧ FatFsM.fileWriter c8fs 0 = none :=
  C10_file_stream_precondition c8fs 0 (by decide)

end FatBits
